import Mathlib

/-!
Verification of the accessibility evaluation engine of
`accessibility_agent.py` (class `AgenteAcessibilidade`).

Shallow embedding conventions:
* Python strings are embedded as `List Char` (`Str`), written
  `("literal".toList)`; Python `+` on strings is `++`, slicing `[:100]` is
  `List.take 100`, `str.strip()` is `pyStrip` (ASCII whitespace), `.lower()`
  is `pyLower` (ASCII lowering), `x in s` is `containsSub`, `str.split()` is
  `pySplit`, `str.split('-')[0]` is `antesDoHifen`, `str(n)` for an `int`
  is `natStr`.
* The BeautifulSoup document is embedded as `Documento`, a record of the
  query results the twelve rules read (one field per `find_all`/`find`
  performed by the source); each element carries exactly the attributes the
  rules inspect plus `html`, the `str(...)` rendering used for snippets.
* Python truthiness of an optional attribute value is `truthy` (absent or
  empty string is falsy).
* The score is integer-valued in the source (weights and 100 are ints, and
  `round(n, 2)` is the identity on ints), so `calcular_pontuacao` returns
  `Int`.
* `requests.get`/`raise_for_status` and a rule raising unexpectedly are
  modelled as `Except Str` values consumed by `avaliar_website`, mirroring
  the single `try/except` of the source; `datetime.now()` is an explicit
  `data` parameter.
-/

abbrev Str : Type := List Char

/-- Python `str.strip()` (whitespace at both ends; ASCII subset). -/
def pyStrip (l : Str) : Str :=
  ((l.dropWhile Char.isWhitespace).reverse.dropWhile Char.isWhitespace).reverse

/-- Python `str.lower()` (ASCII subset). -/
def pyLower (l : Str) : Str :=
  l.map Char.toLower

/-- Python truthiness of an optional attribute value: `None` and `""` are falsy. -/
def truthy : Option Str → Bool
  | none => false
  | some t => !t.isEmpty

/-- Python `needle in hay` on strings. -/
def containsSub : Str → Str → Bool
  | [], needle => needle.isEmpty
  | c :: t, needle => needle.isPrefixOf (c :: t) || containsSub t needle

/-- Existence of a match of the regex `pat\s*([^;]+)`: an occurrence of `pat`
followed by at least one character other than a semicolon (with backtracking,
`\s*` may be empty and whitespace itself matches `[^;]`). -/
def comValorDepois (pat : Str) : Str → Bool
  | [] => false
  | c :: t =>
    (pat.isPrefixOf (c :: t) &&
      (match (c :: t).drop pat.length with
       | [] => false
       | d :: _ => d != ';')) ||
    comValorDepois pat t

def pySplitAux : Str → Str → List Str
  | [], acc => if acc.isEmpty then [] else [acc.reverse]
  | c :: t, acc =>
    if c.isWhitespace then
      if acc.isEmpty then pySplitAux t [] else acc.reverse :: pySplitAux t []
    else pySplitAux t (c :: acc)

/-- Python `str.split()` with no argument: split on whitespace runs, no empties. -/
def pySplit (l : Str) : List Str :=
  pySplitAux l []

/-- Python `' '.join(xs)`. -/
def joinEspaco : List Str → Str
  | [] => []
  | [x] => x
  | x :: xs => x ++ ' ' :: joinEspaco xs

/-- Python `str(n)` for a nonnegative int: decimal digits. -/
def natStr (n : Nat) : Str :=
  Nat.toDigits 10 n

/-- Python `s.split('-')[0]`: the text before the first hyphen. -/
def antesDoHifen (l : Str) : Str :=
  l.takeWhile (· != '-')

/-- `SeveridadeProblema` of the source. -/
inductive SeveridadeProblema where
  | CRITICO
  | GRAVE
  | MODERADO
  | LEVE
deriving DecidableEq

/-- `NivelConformidade` of the source. -/
inductive NivelConformidade where
  | A
  | AA
  | AAA
deriving DecidableEq

/-- `ProblemaAcessibilidade` dataclass of the source. -/
structure ProblemaAcessibilidade where
  criterio : Str
  descricao : Str
  severidade : SeveridadeProblema
  nivel_wcag : NivelConformidade
  elemento : Str
  linha : Option Nat := none
  sugestao : Str := []
  referencia_wcag : Str := []
  referencia_abnt : Str := []
  codigo_exemplo : Str := []
deriving DecidableEq

/-- `RelatorioAcessibilidade` dataclass of the source; the Python dicts
(fixed literal keys in insertion order) are association lists. -/
structure RelatorioAcessibilidade where
  url : Str
  data_avaliacao : Str
  pontuacao_geral : Int
  total_problemas : Nat
  problemas_por_severidade : List (Str × Nat)
  problemas : List ProblemaAcessibilidade
  recomendacoes_priorizadas : List Str
  conformidade_wcag : List (Str × Bool)
  conformidade_abnt : List (Str × Bool)
deriving DecidableEq

/-- An `img` element: the attributes read by `_verificar_alternativas_texto`
and `_is_decorative`. `parentLinkText` is `get_text()` of the nearest
ancestor `a` (absent when there is none). -/
structure Img where
  src : Option Str
  alt : Option Str
  classes : List Str
  parentLinkText : Option Str
  html : Str
deriving DecidableEq

/-- An `input type="image"` element. -/
structure InputImg where
  alt : Option Str
  html : Str
deriving DecidableEq

/-- An element carrying an inline `style` attribute. -/
structure ElementoComEstilo where
  style : Str
  html : Str
deriving DecidableEq

/-- A `div`/`span` with an `onclick` attribute. -/
structure ElementoClicavel where
  tabindex : Option Str
  role : Option Str
  html : Str
deriving DecidableEq

/-- An `input`/`select`/`textarea` element. -/
structure CampoFormulario where
  tipo : Option Str
  id : Option Str
  ariaLabel : Option Str
  ariaLabelledby : Option Str
  titulo : Option Str
  dentroDeLabel : Bool
  obrigatorio : Bool
  ariaRequired : Option Str
  html : Str
deriving DecidableEq

/-- A `video` or `iframe` element (`find_all(['video', 'iframe'])`);
`trilhasLegenda` counts its `track` children with `kind="captions"`. -/
structure Midia where
  nome : Str
  trilhasLegenda : Nat
  autoplay : Option Str
  html : Str
deriving DecidableEq

/-- An `audio` element. -/
structure Audio where
  autoplay : Option Str
  html : Str
deriving DecidableEq

/-- The `title` element, with its `get_text()`. -/
structure ElementoTitulo where
  texto : Str
  html : Str
deriving DecidableEq

/-- An `a` element with an `href` attribute. -/
structure Link where
  href : Str
  texto : Str
  ariaLabel : Option Str
  titulo : Option Str
  temImg : Bool
  target : Option Str
  html : Str
deriving DecidableEq

/-- A `th` cell. -/
structure CelulaTh where
  scope : Option Str
  html : Str
deriving DecidableEq

/-- A `table` element. -/
structure Tabela where
  temCaption : Bool
  temThead : Bool
  ths : List CelulaTh
  html : Str
deriving DecidableEq

/-- An element carrying a `role` attribute. -/
structure ElementoComRole where
  role : Str
  html : Str
deriving DecidableEq

/-- An element carrying an `aria-labelledby` attribute. -/
structure ElementoComLabelledby where
  labelledby : Str
  html : Str
deriving DecidableEq

/-- The `meta name="viewport"` element. -/
structure Viewport where
  content : Option Str
  html : Str
deriving DecidableEq

/-- The parsed page (`self.soup`), embedded as the query results the rules
read. `htmlTag` is `none` when there is no `html` element, otherwise the
(optional) `lang` attribute; `ids` is the set of `id` values present
anywhere; `labelFors` the `for` values of `label` elements; `divClasses`
the class lists of all `div` elements. -/
structure Documento where
  imgs : List Img
  inputImages : List InputImg
  headingsCount : Nat
  h1Count : Nat
  temHeader : Bool
  temNav : Bool
  temMain : Bool
  temFooter : Bool
  temAside : Bool
  temSection : Bool
  divClasses : List (List Str)
  elementosComEstilo : List ElementoComEstilo
  clicaveis : List ElementoClicavel
  labelFors : List Str
  campos : List CampoFormulario
  midias : List Midia
  audios : List Audio
  titulo : Option ElementoTitulo
  htmlTag : Option (Option Str)
  links : List Link
  tabelas : List Tabela
  elementosComRole : List ElementoComRole
  elementosComLabelledby : List ElementoComLabelledby
  ids : List Str
  viewport : Option Viewport
deriving DecidableEq

/-- `self.mapeamento_normas` dictionary. -/
def mapeamento_normas (k : Str) : Str :=
  if k = ("1.1.1".toList) then ("ABNT 5.1 - Alternativas em texto".toList)
  else if k = ("1.3.1".toList) then ("ABNT 5.3 - Estrutura semântica".toList)
  else if k = ("1.4.3".toList) then ("ABNT 5.4.3 - Contraste mínimo".toList)
  else if k = ("2.1.1".toList) then ("ABNT 6.1 - Navegação por teclado".toList)
  else if k = ("2.4.1".toList) then ("ABNT 6.4.1 - Bypass de blocos".toList)
  else if k = ("2.4.2".toList) then ("ABNT 6.4.2 - Títulos de página".toList)
  else if k = ("3.1.1".toList) then ("ABNT 7.1 - Idioma da página".toList)
  else if k = ("4.1.1".toList) then ("ABNT 8.1 - Parsing HTML".toList)
  else if k = ("4.1.2".toList) then ("ABNT 8.2 - Nome, função e valor".toList)
  else []

/-- `_is_decorative`: inside a link with text, or a decoration-indicating
class substring. -/
def is_decorative (img : Img) : Bool :=
  (match img.parentLinkText with
   | some t => !(pyStrip t).isEmpty
   | none => false) ||
  (let classes := joinEspaco img.classes
   [("icon".toList), ("decor".toList), ("bg".toList), ("background".toList)].any
     (fun word => containsSub (pyLower classes) word))

/-- Loop body of `_verificar_alternativas_texto` for one `img`. -/
def problemas_img (img : Img) : List ProblemaAcessibilidade :=
  let src := img.src.getD ("src_desconhecido".toList)
  match img.alt with
  | none =>
    [{ criterio := ("1.1.1 - Alternativas em Texto".toList),
       descricao := ("Imagem sem atributo alt: ".toList) ++ src,
       severidade := SeveridadeProblema.CRITICO,
       nivel_wcag := NivelConformidade.A,
       elemento := img.html.take 100,
       sugestao := ("Adicione um atributo alt descritivo para a imagem".toList),
       referencia_wcag := ("WCAG 2.2 - 1.1.1".toList),
       referencia_abnt := mapeamento_normas ("1.1.1".toList),
       codigo_exemplo := ("<img src=\"".toList) ++ src ++
         ("\" alt=\"Descrição clara da imagem\">".toList) }]
  | some alt =>
    if (pyStrip alt).isEmpty && !is_decorative img then
      [{ criterio := ("1.1.1 - Alternativas em Texto".toList),
         descricao := ("Imagem com alt vazio (não decorativa): ".toList) ++ src,
         severidade := SeveridadeProblema.GRAVE,
         nivel_wcag := NivelConformidade.A,
         elemento := img.html.take 100,
         sugestao := ("Forneça uma descrição textual significativa".toList),
         referencia_wcag := ("WCAG 2.2 - 1.1.1".toList),
         referencia_abnt := mapeamento_normas ("1.1.1".toList),
         codigo_exemplo := ("<img src=\"".toList) ++ src ++
           ("\" alt=\"Descrição do conteúdo da imagem\">".toList) }]
    else []

/-- Loop body of `_verificar_alternativas_texto` for one image input. -/
def problemas_input_img (inp : InputImg) : List ProblemaAcessibilidade :=
  if !truthy inp.alt then
    [{ criterio := ("1.1.1 - Alternativas em Texto".toList),
       descricao := ("Input tipo imagem sem atributo alt".toList),
       severidade := SeveridadeProblema.CRITICO,
       nivel_wcag := NivelConformidade.A,
       elemento := inp.html.take 100,
       sugestao := ("Adicione alt descrevendo a ação do botão".toList),
       referencia_wcag := ("WCAG 2.2 - 1.1.1".toList),
       referencia_abnt := mapeamento_normas ("1.1.1".toList),
       codigo_exemplo := ("<input type=\"image\" alt=\"Enviar formulário\">".toList) }]
  else []

/-- `_verificar_alternativas_texto`. -/
def verificar_alternativas_texto (doc : Documento) : List ProblemaAcessibilidade :=
  doc.imgs.flatMap problemas_img ++ doc.inputImages.flatMap problemas_input_img

/-- `found_landmarks` count in `_verificar_estrutura_semantica`. -/
def landmarks_encontrados (doc : Documento) : Nat :=
  [doc.temHeader, doc.temNav, doc.temMain, doc.temFooter, doc.temAside,
    doc.temSection].count true

/-- Class-list match of the regex `list|item` (case-insensitive) used for
`find_all('div', class_=...)`. -/
def classe_parece_lista (classes : List Str) : Bool :=
  classes.any (fun c =>
    containsSub (pyLower c) ("list".toList) || containsSub (pyLower c) ("item".toList))

/-- `_verificar_estrutura_semantica`. -/
def verificar_estrutura_semantica (doc : Documento) : List ProblemaAcessibilidade :=
  (if doc.headingsCount = 0 then
    [{ criterio := ("1.3.1 - Estrutura Semântica".toList),
       descricao := ("Página sem cabeçalhos (h1-h6)".toList),
       severidade := SeveridadeProblema.GRAVE,
       nivel_wcag := NivelConformidade.A,
       elemento := ("<body>".toList),
       sugestao := ("Use cabeçalhos para estruturar o conteúdo".toList),
       referencia_wcag := ("WCAG 2.2 - 1.3.1".toList),
       referencia_abnt := mapeamento_normas ("1.3.1".toList),
       codigo_exemplo := ("<h1>Título Principal</h1>\n<h2>Seção</h2>".toList) }]
  else []) ++
  (if doc.h1Count > 1 then
    [{ criterio := ("1.3.1 - Estrutura Semântica".toList),
       descricao := ("Múltiplos elementos H1 encontrados (".toList) ++
         natStr doc.h1Count ++ (")".toList),
       severidade := SeveridadeProblema.MODERADO,
       nivel_wcag := NivelConformidade.A,
       elemento := ("<h1>".toList),
       sugestao := ("Use apenas um H1 por página como título principal".toList),
       referencia_wcag := ("WCAG 2.2 - 1.3.1".toList),
       referencia_abnt := mapeamento_normas ("1.3.1".toList),
       codigo_exemplo := ("<h1>Título único da página</h1>".toList) }]
  else []) ++
  (if landmarks_encontrados doc < 3 then
    [{ criterio := ("1.3.1 - Estrutura Semântica".toList),
       descricao := ("Uso limitado de elementos HTML5 semânticos".toList),
       severidade := SeveridadeProblema.MODERADO,
       nivel_wcag := NivelConformidade.A,
       elemento := ("<body>".toList),
       sugestao := ("Use <header>, <nav>, <main>, <footer> para estruturar".toList),
       referencia_wcag := ("WCAG 2.2 - 1.3.1".toList),
       referencia_abnt := mapeamento_normas ("1.3.1".toList),
       codigo_exemplo := ("<header>...</header>\n<nav>...</nav>\n<main>...</main>".toList) }]
  else []) ++
  (if (doc.divClasses.filter classe_parece_lista).length > 3 then
    [{ criterio := ("1.3.1 - Estrutura Semântica".toList),
       descricao := ("Possível uso de divs em vez de listas semânticas".toList),
       severidade := SeveridadeProblema.LEVE,
       nivel_wcag := NivelConformidade.A,
       elemento := ("<div class=\x27list/item\x27>".toList),
       sugestao := ("Use <ul>, <ol> e <li> para listas".toList),
       referencia_wcag := ("WCAG 2.2 - 1.3.1".toList),
       referencia_abnt := mapeamento_normas ("1.3.1".toList),
       codigo_exemplo := ("<ul>\n  <li>Item 1</li>\n  <li>Item 2</li>\n</ul>".toList) }]
  else [])

/-- `_verificar_contraste_cores`: flags an element whose inline style
matches both `color:\s*([^;]+)` and `background(?:-color)?:\s*([^;]+)`. -/
def verificar_contraste_cores (doc : Documento) : List ProblemaAcessibilidade :=
  doc.elementosComEstilo.flatMap fun elem =>
    if comValorDepois ("color:".toList) elem.style &&
        (comValorDepois ("background-color:".toList) elem.style ||
         comValorDepois ("background:".toList) elem.style) then
      [{ criterio := ("1.4.3 - Contraste de Cores".toList),
         descricao := ("Verifique contraste entre texto e fundo".toList),
         severidade := SeveridadeProblema.MODERADO,
         nivel_wcag := NivelConformidade.AA,
         elemento := elem.html.take 100,
         sugestao := ("Razão de contraste mínima: 4.5:1 para texto normal, 3:1 para texto grande".toList),
         referencia_wcag := ("WCAG 2.2 - 1.4.3".toList),
         referencia_abnt := mapeamento_normas ("1.4.3".toList),
         codigo_exemplo := ("Use ferramentas como WebAIM Contrast Checker".toList) }]
    else []

/-- `_verificar_navegacao_teclado`. -/
def verificar_navegacao_teclado (doc : Documento) : List ProblemaAcessibilidade :=
  (doc.clicaveis.flatMap fun elem =>
    if elem.tabindex.isNone && elem.role != some ("button".toList) &&
        elem.role != some ("link".toList) then
      [{ criterio := ("2.1.1 - Navegação por Teclado".toList),
         descricao := ("Elemento interativo não acessível por teclado".toList),
         severidade := SeveridadeProblema.CRITICO,
         nivel_wcag := NivelConformidade.A,
         elemento := elem.html.take 100,
         sugestao := ("Use elementos nativos (<button>, <a>) ou adicione tabindex=\x270\x27 e role apropriado".toList),
         referencia_wcag := ("WCAG 2.2 - 2.1.1".toList),
         referencia_abnt := mapeamento_normas ("2.1.1".toList),
         codigo_exemplo := ("<div role=\"button\" tabindex=\"0\" onkeypress=\"...\">Clique</div>".toList) }]
    else []) ++
  (if (doc.links.filter (fun l => (("#".toList) : Str).isPrefixOf l.href)).isEmpty then
    [{ criterio := ("2.4.1 - Bypass de Blocos".toList),
       descricao := ("Ausência de links para pular navegação (skip links)".toList),
       severidade := SeveridadeProblema.GRAVE,
       nivel_wcag := NivelConformidade.A,
       elemento := ("<body>".toList),
       sugestao := ("Adicione link \x27Pular para conteúdo principal\x27 no início da página".toList),
       referencia_wcag := ("WCAG 2.2 - 2.4.1".toList),
       referencia_abnt := mapeamento_normas ("2.4.1".toList),
       codigo_exemplo := ("<a href=\"#main-content\" class=\"skip-link\">Pular para conteúdo</a>".toList) }]
  else [])

/-- `_verificar_formularios`. -/
def verificar_formularios (doc : Documento) : List ProblemaAcessibilidade :=
  (doc.campos.flatMap fun inp =>
    let input_type := inp.tipo.getD ("text".toList)
    if input_type = ("hidden".toList) || input_type = ("submit".toList) ||
        input_type = ("button".toList) || input_type = ("image".toList) then []
    else
      let label_encontrado :=
        (truthy inp.id && doc.labelFors.contains (inp.id.getD [])) || inp.dentroDeLabel
      if !(label_encontrado || truthy inp.ariaLabel || truthy inp.ariaLabelledby ||
            truthy inp.titulo) then
        [{ criterio := ("4.1.2 - Nome, Função e Valor".toList),
           descricao := ("Campo de formulário sem label: ".toList) ++ input_type,
           severidade := SeveridadeProblema.CRITICO,
           nivel_wcag := NivelConformidade.A,
           elemento := inp.html.take 100,
           sugestao := ("Associe um <label> ao campo ou use aria-label".toList),
           referencia_wcag := ("WCAG 2.2 - 4.1.2".toList),
           referencia_abnt := mapeamento_normas ("4.1.2".toList),
           codigo_exemplo := ("<label for=\"nome\">Nome:</label>\n<input type=\"text\" id=\"nome\">".toList) }]
      else []) ++
  (doc.campos.flatMap fun inp =>
    if inp.obrigatorio && inp.ariaRequired != some ("true".toList) then
      [{ criterio := ("4.1.2 - Nome, Função e Valor".toList),
         descricao := ("Campo obrigatório sem aria-required=\x27true\x27".toList),
         severidade := SeveridadeProblema.LEVE,
         nivel_wcag := NivelConformidade.A,
         elemento := inp.html.take 100,
         sugestao := ("Adicione aria-required=\x27true\x27 para leitores de tela".toList),
         referencia_wcag := ("WCAG 2.2 - 4.1.2".toList),
         referencia_abnt := mapeamento_normas ("4.1.2".toList),
         codigo_exemplo := ("<input type=\"text\" required aria-required=\"true\">".toList) }]
    else [])

/-- `_verificar_multimedia`. -/
def verificar_multimedia (doc : Documento) : List ProblemaAcessibilidade :=
  (doc.midias.flatMap fun video =>
    if video.nome = ("video".toList) then
      (if video.trilhasLegenda = 0 then
        [{ criterio := ("1.2.2 - Legendas".toList),
           descricao := ("Vídeo sem legendas/closed captions".toList),
           severidade := SeveridadeProblema.CRITICO,
           nivel_wcag := NivelConformidade.A,
           elemento := video.html.take 100,
           sugestao := ("Adicione <track kind=\x27captions\x27> com legendas".toList),
           referencia_wcag := ("WCAG 2.2 - 1.2.2".toList),
           referencia_abnt := ("ABNT 5.2.2 - Legendas sincronizadas".toList),
           codigo_exemplo := ("<video>\n  <track kind=\"captions\" src=\"legendas.vtt\" srclang=\"pt-BR\">\n</video>".toList) }]
      else []) ++
      (if truthy video.autoplay then
        [{ criterio := ("1.4.2 - Controle de Áudio".toList),
           descricao := ("Vídeo com autoplay pode causar distração".toList),
           severidade := SeveridadeProblema.GRAVE,
           nivel_wcag := NivelConformidade.A,
           elemento := video.html.take 100,
           sugestao := ("Remova autoplay ou forneça controle de pausa".toList),
           referencia_wcag := ("WCAG 2.2 - 1.4.2".toList),
           referencia_abnt := ("ABNT 5.4.2 - Controle de reprodução".toList),
           codigo_exemplo := ("<video controls>\n  <!-- sem autoplay -->\n</video>".toList) }]
      else [])
    else []) ++
  (doc.audios.flatMap fun audio =>
    if truthy audio.autoplay then
      [{ criterio := ("1.4.2 - Controle de Áudio".toList),
         descricao := ("Áudio com autoplay".toList),
         severidade := SeveridadeProblema.GRAVE,
         nivel_wcag := NivelConformidade.A,
         elemento := audio.html.take 100,
         sugestao := ("Remova autoplay de elementos de áudio".toList),
         referencia_wcag := ("WCAG 2.2 - 1.4.2".toList),
         referencia_abnt := ("ABNT 5.4.2 - Controle de reprodução".toList),
         codigo_exemplo := ("<audio controls src=\"audio.mp3\"></audio>".toList) }]
    else [])

/-- `_verificar_titulos_pagina`. -/
def verificar_titulos_pagina (doc : Documento) : List ProblemaAcessibilidade :=
  match doc.titulo with
  | none =>
    [{ criterio := ("2.4.2 - Título da Página".toList),
       descricao := ("Página sem elemento <title>".toList),
       severidade := SeveridadeProblema.CRITICO,
       nivel_wcag := NivelConformidade.A,
       elemento := ("<head>".toList),
       sugestao := ("Adicione <title> descritivo no <head>".toList),
       referencia_wcag := ("WCAG 2.2 - 2.4.2".toList),
       referencia_abnt := mapeamento_normas ("2.4.2".toList),
       codigo_exemplo := ("<head>\n  <title>Nome da Página - Nome do Site</title>\n</head>".toList) }]
  | some title =>
    if (pyStrip title.texto).length < 3 then
      [{ criterio := ("2.4.2 - Título da Página".toList),
         descricao := ("Título da página muito curto ou vazio".toList),
         severidade := SeveridadeProblema.GRAVE,
         nivel_wcag := NivelConformidade.A,
         elemento := title.html,
         sugestao := ("Forneça título descritivo e significativo".toList),
         referencia_wcag := ("WCAG 2.2 - 2.4.2".toList),
         referencia_abnt := mapeamento_normas ("2.4.2".toList),
         codigo_exemplo := ("<title>Página Inicial - Minha Empresa</title>".toList) }]
    else []

/-- `_verificar_idioma`: fires when the `html` element is absent or its
`lang` attribute is absent/empty. -/
def verificar_idioma (doc : Documento) : List ProblemaAcessibilidade :=
  let problema : ProblemaAcessibilidade :=
    { criterio := ("3.1.1 - Idioma da Página".toList),
      descricao := ("Atributo lang ausente no elemento <html>".toList),
      severidade := SeveridadeProblema.CRITICO,
      nivel_wcag := NivelConformidade.A,
      elemento := ("<html>".toList),
      sugestao := ("Adicione atributo lang no elemento html".toList),
      referencia_wcag := ("WCAG 2.2 - 3.1.1".toList),
      referencia_abnt := mapeamento_normas ("3.1.1".toList),
      codigo_exemplo := ("<html lang=\"pt-BR\">".toList) }
  match doc.htmlTag with
  | none => [problema]
  | some lang => if !truthy lang then [problema] else []

/-- `textos_genericos` list of `_verificar_links`. -/
def textos_genericos : List Str :=
  [("clique aqui".toList), ("saiba mais".toList), ("leia mais".toList),
   ("aqui".toList), ("mais".toList)]

/-- `_verificar_links`. -/
def verificar_links (doc : Documento) : List ProblemaAcessibilidade :=
  doc.links.flatMap fun link =>
    let texto := pyStrip link.texto
    (if texto.isEmpty && !truthy link.ariaLabel && !link.temImg then
      [{ criterio := ("2.4.4 - Finalidade do Link".toList),
         descricao := ("Link sem texto ou descrição".toList),
         severidade := SeveridadeProblema.CRITICO,
         nivel_wcag := NivelConformidade.A,
         elemento := link.html.take 100,
         sugestao := ("Adicione texto descritivo ou aria-label".toList),
         referencia_wcag := ("WCAG 2.2 - 2.4.4".toList),
         referencia_abnt := ("ABNT 6.4.4 - Propósito dos links".toList),
         codigo_exemplo := ("<a href=\"/sobre\" aria-label=\"Sobre nossa empresa\">Saiba mais</a>".toList) }]
    else []) ++
    (if textos_genericos.contains (pyLower texto) && !truthy link.ariaLabel then
      [{ criterio := ("2.4.4 - Finalidade do Link".toList),
         descricao := ("Link com texto genérico: \x27".toList) ++ texto ++ ("\x27".toList),
         severidade := SeveridadeProblema.MODERADO,
         nivel_wcag := NivelConformidade.A,
         elemento := link.html.take 100,
         sugestao := ("Use texto descritivo do destino do link".toList),
         referencia_wcag := ("WCAG 2.2 - 2.4.4".toList),
         referencia_abnt := ("ABNT 6.4.4 - Propósito dos links".toList),
         codigo_exemplo := ("<a href=\"/servicos\">Conheça nossos serviços</a>".toList) }]
    else []) ++
    (if link.target = some ("_blank".toList) then
      if !(containsSub (pyLower texto) ("nova janela".toList) ||
            containsSub (pyLower texto) ("new window".toList)) &&
          !truthy link.ariaLabel then
        [{ criterio := ("3.2.5 - Mudança de Contexto".toList),
           descricao := ("Link abre em nova janela sem aviso".toList),
           severidade := SeveridadeProblema.LEVE,
           nivel_wcag := NivelConformidade.AAA,
           elemento := link.html.take 100,
           sugestao := ("Avise que o link abre em nova janela".toList),
           referencia_wcag := ("WCAG 2.2 - 3.2.5".toList),
           referencia_abnt := ("ABNT 7.2 - Previsibilidade".toList),
           codigo_exemplo := ("<a href=\"...\" target=\"_blank\" rel=\"noopener\">Link (abre em nova janela)</a>".toList) }]
      else []
    else [])

/-- `_verificar_tabelas`. -/
def verificar_tabelas (doc : Documento) : List ProblemaAcessibilidade :=
  doc.tabelas.flatMap fun tabela =>
    (if !tabela.temCaption then
      [{ criterio := ("1.3.1 - Estrutura de Tabelas".toList),
         descricao := ("Tabela sem <caption>".toList),
         severidade := SeveridadeProblema.MODERADO,
         nivel_wcag := NivelConformidade.A,
         elemento := tabela.html.take 100,
         sugestao := ("Adicione <caption> descrevendo o propósito da tabela".toList),
         referencia_wcag := ("WCAG 2.2 - 1.3.1".toList),
         referencia_abnt := mapeamento_normas ("1.3.1".toList),
         codigo_exemplo := ("<table>\n  <caption>Vendas por região em 2024</caption>\n  ...\n</table>".toList) }]
    else []) ++
    (if !tabela.temThead && tabela.ths.isEmpty then
      [{ criterio := ("1.3.1 - Estrutura de Tabelas".toList),
         descricao := ("Tabela sem elementos <th> para cabeçalhos".toList),
         severidade := SeveridadeProblema.GRAVE,
         nivel_wcag := NivelConformidade.A,
         elemento := tabela.html.take 100,
         sugestao := ("Use <th> para células de cabeçalho e <thead> para agrupar".toList),
         referencia_wcag := ("WCAG 2.2 - 1.3.1".toList),
         referencia_abnt := mapeamento_normas ("1.3.1".toList),
         codigo_exemplo := ("<table>\n  <thead>\n    <tr><th>Coluna 1</th><th>Coluna 2</th></tr>\n  </thead>\n  <tbody>...</tbody>\n</table>".toList) }]
    else []) ++
    (tabela.ths.flatMap fun th =>
      if !truthy th.scope then
        [{ criterio := ("1.3.1 - Estrutura de Tabelas".toList),
           descricao := ("Elemento <th> sem atributo scope".toList),
           severidade := SeveridadeProblema.LEVE,
           nivel_wcag := NivelConformidade.A,
           elemento := th.html.take 100,
           sugestao := ("Adicione scope=\x27col\x27 ou scope=\x27row\x27 ao <th>".toList),
           referencia_wcag := ("WCAG 2.2 - 1.3.1".toList),
           referencia_abnt := mapeamento_normas ("1.3.1".toList),
           codigo_exemplo := ("<th scope=\"col\">Nome da Coluna</th>".toList) }]
      else [])

/-- `roles_validos` list of `_verificar_aria`. -/
def roles_validos : List Str :=
  [("alert".toList), ("alertdialog".toList), ("application".toList),
   ("article".toList), ("banner".toList), ("button".toList),
   ("checkbox".toList), ("complementary".toList), ("contentinfo".toList),
   ("dialog".toList), ("directory".toList), ("document".toList),
   ("form".toList), ("grid".toList), ("gridcell".toList), ("group".toList),
   ("heading".toList), ("img".toList), ("link".toList), ("list".toList),
   ("listbox".toList), ("listitem".toList), ("log".toList), ("main".toList),
   ("marquee".toList), ("math".toList), ("menu".toList), ("menubar".toList),
   ("menuitem".toList), ("menuitemcheckbox".toList), ("menuitemradio".toList),
   ("navigation".toList), ("note".toList), ("option".toList),
   ("presentation".toList), ("progressbar".toList), ("radio".toList),
   ("radiogroup".toList), ("region".toList), ("row".toList),
   ("rowgroup".toList), ("rowheader".toList), ("scrollbar".toList),
   ("search".toList), ("separator".toList), ("slider".toList),
   ("spinbutton".toList), ("status".toList), ("tab".toList),
   ("tablist".toList), ("tabpanel".toList), ("textbox".toList),
   ("timer".toList), ("toolbar".toList), ("tooltip".toList),
   ("tree".toList), ("treegrid".toList), ("treeitem".toList)]

/-- Loop body of `_verificar_aria` for one element with a `role` attribute. -/
def problemas_role (elem : ElementoComRole) : List ProblemaAcessibilidade :=
  if !roles_validos.contains elem.role then
    [{ criterio := ("4.1.2 - ARIA Válido".toList),
       descricao := ("Role ARIA inválido: \x27".toList) ++ elem.role ++ ("\x27".toList),
       severidade := SeveridadeProblema.GRAVE,
       nivel_wcag := NivelConformidade.A,
       elemento := elem.html.take 100,
       sugestao := ("Use apenas roles ARIA válidos da especificação".toList),
       referencia_wcag := ("WCAG 2.2 - 4.1.2".toList),
       referencia_abnt := mapeamento_normas ("4.1.2".toList),
       codigo_exemplo := ("<div role=\"navigation\">...</div>".toList) }]
  else []

/-- Finding appended by `_verificar_aria` for one dangling
`aria-labelledby` reference. -/
def problema_labelledby_id (elem : ElementoComLabelledby) (idRef : Str) :
    ProblemaAcessibilidade :=
  { criterio := ("4.1.2 - ARIA Referências".toList),
    descricao := ("aria-labelledby referencia ID inexistente: \x27".toList) ++
      idRef ++ ("\x27".toList),
    severidade := SeveridadeProblema.GRAVE,
    nivel_wcag := NivelConformidade.A,
    elemento := elem.html.take 100,
    sugestao := ("Certifique-se que o ID referenciado existe na página".toList),
    referencia_wcag := ("WCAG 2.2 - 4.1.2".toList),
    referencia_abnt := mapeamento_normas ("4.1.2".toList),
    codigo_exemplo := ("<h2 id=\"titulo-secao\">Título</h2>\n<div aria-labelledby=\"titulo-secao\">...</div>".toList) }

/-- Loop body of `_verificar_aria` for one element with `aria-labelledby`:
split the value on whitespace and flag each id with no element in the page. -/
def problemas_labelledby (ids : List Str) (elem : ElementoComLabelledby) :
    List ProblemaAcessibilidade :=
  (pySplit elem.labelledby).flatMap fun idRef =>
    if !ids.contains idRef then [problema_labelledby_id elem idRef] else []

/-- `_verificar_aria`. -/
def verificar_aria (doc : Documento) : List ProblemaAcessibilidade :=
  doc.elementosComRole.flatMap problemas_role ++
    doc.elementosComLabelledby.flatMap (problemas_labelledby doc.ids)

/-- `_verificar_responsividade`. -/
def verificar_responsividade (doc : Documento) : List ProblemaAcessibilidade :=
  match doc.viewport with
  | none =>
    [{ criterio := ("1.4.10 - Reflow/Responsividade".toList),
       descricao := ("Meta tag viewport ausente".toList),
       severidade := SeveridadeProblema.GRAVE,
       nivel_wcag := NivelConformidade.AA,
       elemento := ("<head>".toList),
       sugestao := ("Adicione meta viewport para responsividade".toList),
       referencia_wcag := ("WCAG 2.2 - 1.4.10".toList),
       referencia_abnt := ("ABNT 5.4.10 - Adaptação visual".toList),
       codigo_exemplo := ("<meta name=\"viewport\" content=\"width=device-width, initial-scale=1.0\">".toList) }]
  | some viewport =>
    let content := viewport.content.getD []
    if containsSub content ("user-scalable=no".toList) ||
        containsSub content ("maximum-scale=1".toList) then
      [{ criterio := ("1.4.4 - Redimensionamento de Texto".toList),
         descricao := ("Viewport bloqueia zoom do usuário".toList),
         severidade := SeveridadeProblema.CRITICO,
         nivel_wcag := NivelConformidade.AA,
         elemento := viewport.html,
         sugestao := ("Não bloqueie o zoom: remova user-scalable=no".toList),
         referencia_wcag := ("WCAG 2.2 - 1.4.4".toList),
         referencia_abnt := ("ABNT 5.4.4 - Redimensionamento".toList),
         codigo_exemplo := ("<meta name=\"viewport\" content=\"width=device-width, initial-scale=1.0\">".toList) }]
    else []

/-- `pesos_severidade` weight table of `_calcular_pontuacao`. -/
def pesos_severidade : SeveridadeProblema → Int
  | SeveridadeProblema.CRITICO => 10
  | SeveridadeProblema.GRAVE => 5
  | SeveridadeProblema.MODERADO => 2
  | SeveridadeProblema.LEVE => 1

/-- `_calcular_pontuacao`: 100 for no findings, otherwise
`max(0, 100 - sum of weights)`; `round(_, 2)` is the identity on these
integer values. -/
def calcular_pontuacao : List ProblemaAcessibilidade → Int
  | [] => 100
  | problemas =>
    let pontos_perdidos := (problemas.map (fun p => pesos_severidade p.severidade)).sum
    max 0 (100 - pontos_perdidos)

/-- `categorias[cat] = categorias.get(cat, 0) + 1` on an insertion-ordered dict. -/
def incrementa_categoria (m : List (Str × Nat)) (cat : Str) : List (Str × Nat) :=
  if m.any (fun kv => kv.1 = cat) then
    m.map (fun kv => if kv.1 = cat then (kv.1, kv.2 + 1) else kv)
  else m ++ [(cat, 1)]

/-- The `categorias` dict of `_gerar_recomendacoes_priorizadas`. -/
def contar_categorias (problemas : List ProblemaAcessibilidade) : List (Str × Nat) :=
  problemas.foldl (fun m p => incrementa_categoria m (pyStrip (antesDoHifen p.criterio))) []

/-- `max(categorias.items(), key=lambda x: x[1])`: first pair with maximal
count (Python `max` keeps the earliest among ties), `None` when empty. -/
def categoria_mais_problemas (cats : List (Str × Nat)) : Option (Str × Nat) :=
  cats.foldl
    (fun best kv =>
      match best with
      | none => some kv
      | some b => if kv.2 > b.2 then some kv else some b)
    none

/-- `_gerar_recomendacoes_priorizadas`. -/
def gerar_recomendacoes_priorizadas (problemas : List ProblemaAcessibilidade) :
    List Str :=
  let criticos := problemas.filter (fun p => p.severidade == SeveridadeProblema.CRITICO)
  let graves := problemas.filter (fun p => p.severidade == SeveridadeProblema.GRAVE)
  (if !criticos.isEmpty then
    [("PRIORIDADE CRÍTICA: Corrigir ".toList) ++ natStr criticos.length ++
      (" problemas críticos (imagens sem alt, formulários sem labels, elementos não acessíveis por teclado)".toList)]
  else []) ++
  (if !graves.isEmpty then
    [("PRIORIDADE ALTA: Resolver ".toList) ++ natStr graves.length ++
      (" problemas graves (estrutura semântica, contraste, navegação)".toList)]
  else []) ++
  (match categoria_mais_problemas (contar_categorias problemas) with
   | some cat =>
     [("Categoria com mais problemas: \x27".toList) ++ cat.1 ++
       ("\x27 (".toList) ++ natStr cat.2 ++ (" ocorrências)".toList)]
   | none => []) ++
  (let nivel_a := (problemas.filter (fun p => p.nivel_wcag == NivelConformidade.A)).length
   if nivel_a > 0 then
     [natStr nivel_a ++
       (" violações do Nível A da WCAG (requisitos mínimos obrigatórios)".toList)]
   else []) ++
  [("Consulte WCAG 2.2 e ABNT NBR 17225:2025 para diretrizes completas".toList)]

/-- `_avaliar_conformidade`: the WCAG dict and the ABNT dict. -/
def avaliar_conformidade (problemas : List ProblemaAcessibilidade) :
    List (Str × Bool) × List (Str × Bool) :=
  let problemas_nivel_a := problemas.filter (fun p => p.nivel_wcag == NivelConformidade.A)
  let problemas_nivel_aa := problemas.filter (fun p => p.nivel_wcag == NivelConformidade.AA)
  let conformidade_wcag : List (Str × Bool) :=
    [(("Nível A".toList), problemas_nivel_a.length == 0),
     (("Nível AA".toList), problemas_nivel_a.length == 0 && problemas_nivel_aa.length == 0),
     (("Nível AAA".toList), false)]
  let criterios_abnt : List (Str × Bool) :=
    problemas.foldl
      (fun m p =>
        if !p.referencia_abnt.isEmpty then
          let criterio_base := pyStrip (antesDoHifen p.referencia_abnt)
          if m.any (fun kv => containsSub kv.1 criterio_base) then
            m.map (fun kv => if containsSub kv.1 criterio_base then (kv.1, false) else kv)
          else m
        else m)
      [(("5.1 - Alternativas em texto".toList), true),
       (("5.3 - Estrutura semântica".toList), true),
       (("6.1 - Navegação por teclado".toList), true),
       (("8.2 - Identificação de campos".toList), true)]
  (conformidade_wcag, criterios_abnt)

/-- `_gerar_relatorio` (with `datetime.now()` as the explicit `data`). -/
def gerar_relatorio (url data : Str) (problemas : List ProblemaAcessibilidade) :
    RelatorioAcessibilidade :=
  let pontuacao := calcular_pontuacao problemas
  let problemas_por_severidade : List (Str × Nat) :=
    [(("Crítico".toList), problemas.countP (fun p => p.severidade == SeveridadeProblema.CRITICO)),
     (("Grave".toList), problemas.countP (fun p => p.severidade == SeveridadeProblema.GRAVE)),
     (("Moderado".toList), problemas.countP (fun p => p.severidade == SeveridadeProblema.MODERADO)),
     (("Leve".toList), problemas.countP (fun p => p.severidade == SeveridadeProblema.LEVE))]
  { url := url,
    data_avaliacao := data,
    pontuacao_geral := pontuacao,
    total_problemas := problemas.length,
    problemas_por_severidade := problemas_por_severidade,
    problemas := problemas,
    recomendacoes_priorizadas := gerar_recomendacoes_priorizadas problemas,
    conformidade_wcag := (avaliar_conformidade problemas).1,
    conformidade_abnt := (avaliar_conformidade problemas).2 }

/-- `_gerar_relatorio_erro`. -/
def gerar_relatorio_erro (url data erro : Str) : RelatorioAcessibilidade :=
  { url := url,
    data_avaliacao := data,
    pontuacao_geral := 0,
    total_problemas := 0,
    problemas_por_severidade := [],
    problemas := [],
    recomendacoes_priorizadas := [("Erro ao avaliar: ".toList) ++ erro],
    conformidade_wcag := [],
    conformidade_abnt := [] }

/-- Sequential execution of the check methods inside the `try` block: each
check either extends the accumulated findings or raises; a raise reaches
the single top-level handler (nothing of the accumulator survives, since
`_gerar_relatorio_erro` ignores it). -/
def executar_verificacoes :
    List (Except Str (List ProblemaAcessibilidade)) →
      Except Str (List ProblemaAcessibilidade)
  | [] => Except.ok []
  | r :: rs =>
    match r with
    | Except.error e => Except.error e
    | Except.ok problemas =>
      match executar_verificacoes rs with
      | Except.error e => Except.error e
      | Except.ok resto => Except.ok (problemas ++ resto)

/-- `avaliar_website`: the fetch step (`requests.get` + `raise_for_status` +
parse) either raises or yields the page, then the twelve checks run inside
the same `try`; any exception is caught by the one `except` clause, which
returns `_gerar_relatorio_erro`. -/
def avaliar_website (url data : Str) (fetch : Except Str Unit)
    (verificacoes : List (Except Str (List ProblemaAcessibilidade))) :
    RelatorioAcessibilidade :=
  match fetch with
  | Except.error e => gerar_relatorio_erro url data e
  | Except.ok _ =>
    match executar_verificacoes verificacoes with
    | Except.error e => gerar_relatorio_erro url data e
    | Except.ok problemas => gerar_relatorio url data problemas

/-- The rule catalogue in registration order, as outcome values (the
translated rules are total, so each outcome is `ok`). -/
def catalogo (doc : Documento) : List (Except Str (List ProblemaAcessibilidade)) :=
  [Except.ok (verificar_alternativas_texto doc),
   Except.ok (verificar_estrutura_semantica doc),
   Except.ok (verificar_contraste_cores doc),
   Except.ok (verificar_navegacao_teclado doc),
   Except.ok (verificar_formularios doc),
   Except.ok (verificar_multimedia doc),
   Except.ok (verificar_titulos_pagina doc),
   Except.ok (verificar_idioma doc),
   Except.ok (verificar_links doc),
   Except.ok (verificar_tabelas doc),
   Except.ok (verificar_aria doc),
   Except.ok (verificar_responsividade doc)]

/-- The finding sequence accumulated by a full evaluation of one page:
all twelve checks in registration order. -/
def executar_catalogo (doc : Documento) : List ProblemaAcessibilidade :=
  verificar_alternativas_texto doc ++ verificar_estrutura_semantica doc ++
    verificar_contraste_cores doc ++ verificar_navegacao_teclado doc ++
    verificar_formularios doc ++ verificar_multimedia doc ++
    verificar_titulos_pagina doc ++ verificar_idioma doc ++
    verificar_links doc ++ verificar_tabelas doc ++ verificar_aria doc ++
    verificar_responsividade doc

/-- Decorative-image predicate in the words of the specification: the
nearest ancestor link has non-empty visible text, or the class attribute
contains one of the case-insensitive substrings "icon", "decor", "bg",
"background". Stated independently of `_is_decorative` for comparison. -/
def espec_decorativa (img : Img) : Bool :=
  !(pyStrip (img.parentLinkText.getD [])).isEmpty ||
  containsSub (pyLower (joinEspaco img.classes)) ("icon".toList) ||
  containsSub (pyLower (joinEspaco img.classes)) ("decor".toList) ||
  containsSub (pyLower (joinEspaco img.classes)) ("bg".toList) ||
  containsSub (pyLower (joinEspaco img.classes)) ("background".toList)

/-- Per-image emission in the words of the specification, projected to
severity and conformance level: Critical/A for a missing alt, Serious/A for
an alt empty after trimming on a non-decorative image, nothing otherwise. -/
def espec_problemas_img (img : Img) : List (SeveridadeProblema × NivelConformidade) :=
  match img.alt with
  | none => [(SeveridadeProblema.CRITICO, NivelConformidade.A)]
  | some alt =>
    if (pyStrip alt).isEmpty && !espec_decorativa img then
      [(SeveridadeProblema.GRAVE, NivelConformidade.A)]
    else []

/-- Sum of severity weights of a finding sequence. -/
def soma_pesos (problemas : List ProblemaAcessibilidade) : Int :=
  (problemas.map (fun p => pesos_severidade p.severidade)).sum

/-- A page on which no rule finds anything to inspect. -/
def doc_vazio : Documento :=
  { imgs := [],
    inputImages := [],
    headingsCount := 0,
    h1Count := 0,
    temHeader := false,
    temNav := false,
    temMain := false,
    temFooter := false,
    temAside := false,
    temSection := false,
    divClasses := [],
    elementosComEstilo := [],
    clicaveis := [],
    labelFors := [],
    campos := [],
    midias := [],
    audios := [],
    titulo := none,
    htmlTag := none,
    links := [],
    tabelas := [],
    elementosComRole := [],
    elementosComLabelledby := [],
    ids := [],
    viewport := none }

/-- A page whose viewport content does not lock zoom to 1 but contains the
substring "maximum-scale=1". -/
def doc_viewport_exemplo : Documento :=
  { doc_vazio with
    viewport := some
      { content := some ("width=device-width, maximum-scale=10".toList),
        html := ("<meta content=\"width=device-width, maximum-scale=10\" name=\"viewport\"/>".toList) } }

/-- A concrete finding (the one `_verificar_idioma` emits). -/
def problema_exemplo : ProblemaAcessibilidade :=
  { criterio := ("3.1.1 - Idioma da Página".toList),
    descricao := ("Atributo lang ausente no elemento <html>".toList),
    severidade := SeveridadeProblema.CRITICO,
    nivel_wcag := NivelConformidade.A,
    elemento := ("<html>".toList),
    sugestao := ("Adicione atributo lang no elemento html".toList),
    referencia_wcag := ("WCAG 2.2 - 3.1.1".toList),
    referencia_abnt := mapeamento_normas ("3.1.1".toList),
    codigo_exemplo := ("<html lang=\"pt-BR\">".toList) }

lemma pyStrip_nil : pyStrip [] = [] := rfl

lemma flatMap_guard_singleton {α β : Type} (p : α → Bool) (f : α → β) :
    ∀ l : List α, (l.flatMap fun a => if p a then [f a] else []) = (l.filter p).map f := by
  intro l
  induction l with
  | nil => rfl
  | cons a t ih =>
    by_cases h : p a = true
    · rw [List.flatMap_cons, List.filter_cons, if_pos h, if_pos h, List.map_cons, ih]
      rfl
    · rw [List.flatMap_cons, List.filter_cons, if_neg h, if_neg h, ih]
      rfl

lemma pesos_severidade_nonneg (sev : SeveridadeProblema) : 0 ≤ pesos_severidade sev := by
  cases sev <;> decide

lemma soma_pesos_nonneg (problemas : List ProblemaAcessibilidade) :
    0 ≤ soma_pesos problemas := by
  induction problemas with
  | nil => simp [soma_pesos]
  | cons p t ih =>
    have h := pesos_severidade_nonneg p.severidade
    simp only [soma_pesos, List.map_cons, List.sum_cons] at *
    omega

lemma calcular_pontuacao_eq (problemas : List ProblemaAcessibilidade) :
    calcular_pontuacao problemas = min 100 (max 0 (100 - soma_pesos problemas)) := by
  cases problemas with
  | nil => decide
  | cons p t =>
    have h := soma_pesos_nonneg (p :: t)
    simp only [calcular_pontuacao, soma_pesos] at *
    omega

/-- C1: for every finding sequence the score equals
`clamp(100 - Σ weight, 0, 100)` (Critical=10, Serious=5, Moderate=2,
Minor=1; the values are integral, so rounding to 2 decimal places is the
identity), and the empty sequence scores exactly 100. -/
theorem pontuacao_formula_fechada (problemas : List ProblemaAcessibilidade) :
    calcular_pontuacao problemas = min 100 (max 0 (100 - soma_pesos problemas)) ∧
    calcular_pontuacao [] = 100 :=
  ⟨calcular_pontuacao_eq problemas, rfl⟩

/-- C7: the score never increases when a finding is appended, and it always
lies in the closed interval `[0, 100]`. -/
theorem pontuacao_monotona_e_limitada (problemas : List ProblemaAcessibilidade)
    (p : ProblemaAcessibilidade) :
    calcular_pontuacao (problemas ++ [p]) ≤ calcular_pontuacao problemas ∧
    0 ≤ calcular_pontuacao problemas ∧ calcular_pontuacao problemas ≤ 100 := by
  have h1 := calcular_pontuacao_eq (problemas ++ [p])
  have h2 := calcular_pontuacao_eq problemas
  have h3 : soma_pesos (problemas ++ [p]) = soma_pesos problemas + pesos_severidade p.severidade := by
    simp [soma_pesos]
  have h4 := pesos_severidade_nonneg p.severidade
  have h5 := soma_pesos_nonneg problemas
  rw [h1, h2, h3]
  omega

/-- C5: when the fetch fails, the evaluation returns the degraded report:
score 0, no findings, and a single recommendation line containing the
failure description. -/
theorem falha_de_fetch_gera_relatorio_degradado (url data erro : Str)
    (verificacoes : List (Except Str (List ProblemaAcessibilidade))) :
    (avaliar_website url data (Except.error erro) verificacoes).pontuacao_geral = 0 ∧
    (avaliar_website url data (Except.error erro) verificacoes).problemas = [] ∧
    (avaliar_website url data (Except.error erro) verificacoes).recomendacoes_priorizadas
      = [("Erro ao avaliar: ".toList) ++ erro] :=
  ⟨rfl, rfl, rfl⟩

lemma executar_verificacoes_erro (oks : List (List ProblemaAcessibilidade)) (e : Str)
    (resto : List (Except Str (List ProblemaAcessibilidade))) :
    executar_verificacoes (oks.map Except.ok ++ Except.error e :: resto)
      = Except.error e := by
  induction oks with
  | nil => rfl
  | cons a t ih => simp [executar_verificacoes, ih]

/-- C3 (counterexample): with one rule that found `problema_exemplo` and one
rule that raises, `avaliar_website` returns the degraded error report —
empty findings and score 0 — not a normal report built from the findings of
the other rule; the claimed per-rule isolation does not happen. -/
theorem falha_de_regra_aborta_avaliacao :
    avaliar_website ("https://example.com".toList) ("2025-01-01 00:00:00".toList)
        (Except.ok ()) [Except.ok [problema_exemplo], Except.error ("boom".toList)]
      = gerar_relatorio_erro ("https://example.com".toList)
          ("2025-01-01 00:00:00".toList) ("boom".toList) ∧
    (avaliar_website ("https://example.com".toList) ("2025-01-01 00:00:00".toList)
        (Except.ok ()) [Except.ok [problema_exemplo], Except.error ("boom".toList)]).problemas
      = [] ∧
    (avaliar_website ("https://example.com".toList) ("2025-01-01 00:00:00".toList)
        (Except.ok ()) [Except.ok [problema_exemplo], Except.error ("boom".toList)]).pontuacao_geral
      = 0 ∧
    avaliar_website ("https://example.com".toList) ("2025-01-01 00:00:00".toList)
        (Except.ok ()) [Except.ok [problema_exemplo], Except.error ("boom".toList)]
      ≠ gerar_relatorio ("https://example.com".toList) ("2025-01-01 00:00:00".toList)
          [problema_exemplo] := by
  refine ⟨rfl, rfl, rfl, fun h => ?_⟩
  have h0 := congrArg RelatorioAcessibilidade.total_problemas h
  simp [avaliar_website, executar_verificacoes, gerar_relatorio, gerar_relatorio_erro] at h0

/-- C3 (amended): a rule raising unexpectedly is caught by the single
top-level handler of `avaliar_website`: the evaluation returns the degraded
error report for the first failure (no uncaught failure reaches the
caller), and it does not continue with the remaining rules. -/
theorem falha_de_regra_gera_relatorio_erro (url data : Str)
    (oks : List (List ProblemaAcessibilidade)) (e : Str)
    (resto : List (Except Str (List ProblemaAcessibilidade))) :
    avaliar_website url data (Except.ok ()) (oks.map Except.ok ++ Except.error e :: resto)
      = gerar_relatorio_erro url data e := by
  simp [avaliar_website, executar_verificacoes_erro]

/-- C4 (counterexample): the degraded report produced on a fetch failure has
an empty counts-by-severity mapping and an empty conformance mapping — the
four severity keys and three level keys are absent there. -/
theorem relatorio_erro_sem_chaves :
    (avaliar_website ("https://example.com".toList) ("2025-01-01 00:00:00".toList)
        (Except.error ("timeout".toList)) []).problemas_por_severidade = [] ∧
    (avaliar_website ("https://example.com".toList) ("2025-01-01 00:00:00".toList)
        (Except.error ("timeout".toList)) []).conformidade_wcag = [] ∧
    (avaliar_website ("https://example.com".toList) ("2025-01-01 00:00:00".toList)
        (Except.error ("timeout".toList)) []).problemas_por_severidade.lookup
        ("Crítico".toList) = none :=
  ⟨rfl, rfl, rfl⟩

/-- C4 (amended): every normal report carries all four severity keys
(zero-filled via the counts) and all three conformance keys, while the
degraded error report carries empty mappings. -/
theorem chaves_dos_relatorios (url data erro : Str)
    (problemas : List ProblemaAcessibilidade) :
    (gerar_relatorio url data problemas).problemas_por_severidade.map Prod.fst
      = [("Crítico".toList), ("Grave".toList), ("Moderado".toList), ("Leve".toList)] ∧
    (gerar_relatorio url data problemas).conformidade_wcag.map Prod.fst
      = [("Nível A".toList), ("Nível AA".toList), ("Nível AAA".toList)] ∧
    (gerar_relatorio_erro url data erro).problemas_por_severidade = [] ∧
    (gerar_relatorio_erro url data erro).conformidade_wcag = [] :=
  ⟨rfl, rfl, rfl, rfl⟩

/-- C8: evaluation is deterministic — running the full rule catalogue on
equal immutable documents yields identical finding sequences and identical
scores. -/
theorem avaliacao_idempotente (d₁ d₂ : Documento) (h : d₁ = d₂) :
    executar_catalogo d₁ = executar_catalogo d₂ ∧
    calcular_pontuacao (executar_catalogo d₁)
      = calcular_pontuacao (executar_catalogo d₂) := by
  subst h
  exact ⟨rfl, rfl⟩

/-- Witness for C8 at a concrete document. -/
theorem avaliacao_idempotente_witness :
    executar_catalogo doc_vazio = executar_catalogo doc_vazio ∧
    calcular_pontuacao (executar_catalogo doc_vazio)
      = calcular_pontuacao (executar_catalogo doc_vazio) :=
  avaliacao_idempotente doc_vazio doc_vazio rfl

/-- C2: the WCAG conformance mapping has level A true exactly when no
finding has level A, level AA true exactly when level A is true and no
finding has level AA, and level AAA always false. -/
theorem conformidade_wcag_espec (problemas : List ProblemaAcessibilidade) :
    ∃ a aa : Bool,
      (avaliar_conformidade problemas).1
        = [(("Nível A".toList), a), (("Nível AA".toList), aa),
           (("Nível AAA".toList), false)] ∧
      (a = true ↔ ∀ p ∈ problemas, p.nivel_wcag ≠ NivelConformidade.A) ∧
      (aa = true ↔ (a = true ∧ ∀ p ∈ problemas, p.nivel_wcag ≠ NivelConformidade.AA)) := by
  refine ⟨_, _, rfl, ?_, ?_⟩
  · simp [List.length_eq_zero, List.filter_eq_nil_iff]
  · simp [List.length_eq_zero, List.filter_eq_nil_iff]

/-- Witness for C2 at a concrete finding list. -/
theorem conformidade_wcag_espec_witness :
    ∃ a aa : Bool,
      (avaliar_conformidade [problema_exemplo]).1
        = [(("Nível A".toList), a), (("Nível AA".toList), aa),
           (("Nível AAA".toList), false)] ∧
      (a = true ↔ ∀ p ∈ [problema_exemplo], p.nivel_wcag ≠ NivelConformidade.A) ∧
      (aa = true ↔ (a = true ∧
        ∀ p ∈ [problema_exemplo], p.nivel_wcag ≠ NivelConformidade.AA)) :=
  conformidade_wcag_espec [problema_exemplo]

/-- C6: per image, the text-alternatives rule emits a Critical/A finding for
a missing alt and a Serious/A finding for a trimmed-empty alt on a
non-decorative image; the source's decorative heuristic coincides with the
specification's (ancestor link with visible text, or a decoration-indicating
class substring); the rule is this per-image emission plus the image-input
check. -/
theorem alternativas_texto_espec (doc : Documento) :
    (doc.imgs.flatMap problemas_img).map (fun p => (p.severidade, p.nivel_wcag))
      = doc.imgs.flatMap espec_problemas_img ∧
    (∀ img : Img, is_decorative img = espec_decorativa img) ∧
    verificar_alternativas_texto doc
      = doc.imgs.flatMap problemas_img ++ doc.inputImages.flatMap problemas_input_img := by
  have hdec : ∀ img : Img, is_decorative img = espec_decorativa img := by
    intro img
    cases h : img.parentLinkText <;>
      simp [is_decorative, espec_decorativa, h, pyStrip_nil, Bool.or_assoc]
  have himg : ∀ img : Img,
      (problemas_img img).map (fun p => (p.severidade, p.nivel_wcag))
        = espec_problemas_img img := by
    intro img
    cases h : img.alt with
    | none => simp [problemas_img, espec_problemas_img, h]
    | some alt =>
      simp only [problemas_img, espec_problemas_img, h, hdec]
      split <;> simp
  refine ⟨?_, hdec, rfl⟩
  rw [List.map_flatMap]
  simp only [himg]

/-- C9: with the viewport meta tag present, the responsiveness rule emits
exactly one Critical/AA zoom-lock finding when the content contains the
substring "user-scalable=no" or the substring "maximum-scale=1" (plain
substring match), and no finding otherwise. -/
theorem responsividade_espec (doc : Documento) (v : Viewport)
    (h : doc.viewport = some v) :
    ((containsSub (v.content.getD []) ("user-scalable=no".toList) = true ∨
      containsSub (v.content.getD []) ("maximum-scale=1".toList) = true) →
      (verificar_responsividade doc).length = 1 ∧
      ∀ p ∈ verificar_responsividade doc,
        p.severidade = SeveridadeProblema.CRITICO ∧
        p.nivel_wcag = NivelConformidade.AA ∧
        p.criterio = ("1.4.4 - Redimensionamento de Texto".toList)) ∧
    ((containsSub (v.content.getD []) ("user-scalable=no".toList) = false ∧
      containsSub (v.content.getD []) ("maximum-scale=1".toList) = false) →
      verificar_responsividade doc = []) := by
  constructor
  · rintro (hc | hc) <;> simp at hc <;> simp [verificar_responsividade, h, hc]
  · rintro ⟨h1, h2⟩
    simp at h1 h2
    simp [verificar_responsividade, h, h1, h2]

/-- Witness for C9: a content of "maximum-scale=10", which does not lock
zoom to 1, is nevertheless flagged via the plain substring match. -/
theorem responsividade_espec_witness :
    (verificar_responsividade doc_viewport_exemplo).length = 1 ∧
    ∀ p ∈ verificar_responsividade doc_viewport_exemplo,
      p.severidade = SeveridadeProblema.CRITICO ∧
      p.nivel_wcag = NivelConformidade.AA ∧
      p.criterio = ("1.4.4 - Redimensionamento de Texto".toList) :=
  (responsividade_espec doc_viewport_exemplo
    { content := some ("width=device-width, maximum-scale=10".toList),
      html := ("<meta content=\"width=device-width, maximum-scale=10\" name=\"viewport\"/>".toList) }
    rfl).1 (Or.inr (by decide))

/-- C10: per element with `aria-labelledby`, the ARIA rule splits the value
on whitespace and emits one Serious/A finding per referenced id absent from
the document — as many findings as missing ids (so one element can yield
several), and none when every referenced id exists. -/
theorem aria_labelledby_espec (ids : List Str) (elem : ElementoComLabelledby) :
    (problemas_labelledby ids elem).length
      = ((pySplit elem.labelledby).filter (fun idRef => !ids.contains idRef)).length ∧
    (∀ p ∈ problemas_labelledby ids elem,
      p.severidade = SeveridadeProblema.GRAVE ∧ p.nivel_wcag = NivelConformidade.A) ∧
    ((∀ idRef ∈ pySplit elem.labelledby, ids.contains idRef = true) →
      problemas_labelledby ids elem = []) := by
  have key : problemas_labelledby ids elem
      = ((pySplit elem.labelledby).filter (fun idRef => !ids.contains idRef)).map
          (problema_labelledby_id elem) :=
    flatMap_guard_singleton (fun idRef => !ids.contains idRef)
      (problema_labelledby_id elem) (pySplit elem.labelledby)
  refine ⟨by rw [key, List.length_map], ?_, ?_⟩
  · rw [key]
    intro p hp
    rcases List.mem_map.mp hp with ⟨r, _, rfl⟩
    exact ⟨rfl, rfl⟩
  · intro hall
    rw [key]
    have hf : (pySplit elem.labelledby).filter (fun idRef => !ids.contains idRef) = [] :=
      List.filter_eq_nil_iff.mpr (fun a ha => by simpa using hall a ha)
    rw [hf]
    rfl

/-- Witness for C10: one element referencing two missing ids yields two
findings; an element whose referenced id exists yields none. -/
theorem aria_labelledby_espec_witness :
    (problemas_labelledby [] ⟨("a b".toList), ("<div></div>".toList)⟩).length = 2 ∧
    problemas_labelledby [("x".toList)] ⟨("x".toList), ("<div></div>".toList)⟩ = [] := by
  constructor
  · rw [(aria_labelledby_espec [] ⟨("a b".toList), ("<div></div>".toList)⟩).1]
    decide
  · exact (aria_labelledby_espec [("x".toList)] ⟨("x".toList), ("<div></div>".toList)⟩).2.2
      (by decide)
